import Mathlib

/-!
# Reaction time tester (`lab01.c`, Atmel Mega32)

A shallow embedding of the timing state machine of `lab01.c`: the timer0
compare interrupt `tim0_comp_isr` (one call per millisecond), the external
interrupt `ext_int0_isr` (falling edge of pushbutton 2), the routine `start`
and the body of the `while(1)` loop of `main`.

`unsigned int` is 16 bits wide on this target, so every `++` and `+` on the
counters is taken modulo `65536`; `unsigned char` values and the 8-bit port
`PORTB` are kept as natural numbers as well.  The input port `PIND` is an
argument of the timer handler, which is the only reader of it.
-/

namespace Lab01

/-! ## Constants of the source -/

/-- Operating state `FLASH`. -/
abbrev FLASH : Nat := 0
/-- Operating state `DARK`. -/
abbrev DARK : Nat := 1
/-- Operating state `TEST`. -/
abbrev TEST : Nat := 2
/-- Operating state `DONE`. -/
abbrev DONE : Nat := 3

/-- Value `NONE` of `lcd_flag`. -/
abbrev NONE : Nat := 0
/-- Value `START` of `lcd_flag`. -/
abbrev START : Nat := 1
/-- Value `CHEAT` of `lcd_flag`. -/
abbrev CHEAT : Nat := 2
/-- Value `TIME` of `lcd_flag`. -/
abbrev TIME : Nat := 3
/-- Value `SLOW` of `lcd_flag`. -/
abbrev SLOW : Nat := 4

/-- Value `RUNNING` of `go_flag`. -/
abbrev RUNNING : Nat := 0
/-- Value `RESTART` of `go_flag`. -/
abbrev RESTART : Nat := 1

/-- Bounce time for the pushbuttons, in milliseconds. -/
abbrev BOUNCETIME : Nat := 30

/-! ## State -/

/-- The runtime globals of `lab01.c` together with the output port `PORTB`
(the LEDs are active low: `0x00` is all on, `0xFF` is all off). -/
structure State where
  /-- Field `count`: time in ms (`unsigned int`). -/
  count : Nat
  /-- Field `delay`: pseudorandom delay time in ms (`unsigned int`). -/
  delay : Nat
  /-- Field `randcount`: pseudorandom number (`unsigned int`). -/
  randcount : Nat
  /-- Field `reacttime`: reaction time in ms (`unsigned int`). -/
  reacttime : Nat
  /-- Field `fastest`: fastest time in ms (`eeprom unsigned int`). -/
  fastest : Nat
  /-- Field `mode`: operation mode (`unsigned char`). -/
  mode : Nat
  /-- Field `go_flag`: operation flag (`unsigned char`). -/
  go_flag : Nat
  /-- Field `lcd_flag`: LCD control flag (`unsigned char`). -/
  lcd_flag : Nat
  /-- Register `PORTB`: the LED bank. -/
  PORTB : Nat
  deriving DecidableEq, Repr

/-! ## Interrupt handlers -/

/-- Timer0 compare interrupt service routine; `PIND` is the value of the
input port read during this call. -/
def tim0_comp_isr (s : State) (PIND : Nat) : State :=
  if s.mode = FLASH then
    if s.count > 500 then
      { s with PORTB := (s.PORTB ^^^ 0xFF) % 256, count := 0 }
    else
      { s with count := (s.count + 1) % 65536 }
  else if s.mode = DARK then
    if s.count > s.delay then
      if PIND &&& 0x04 ≠ 0 then
        { s with PORTB := 0x00, count := 0, mode := TEST }
      else
        { s with PORTB := 0x00, count := 0, lcd_flag := CHEAT, mode := DONE }
    else
      { s with count := (s.count + 1) % 65536 }
  else if s.mode = TEST then
    if (s.count + 1) % 65536 = 0xFFFF then
      { s with count := (s.count + 1) % 65536, lcd_flag := SLOW, mode := DONE }
    else
      { s with count := (s.count + 1) % 65536 }
  else if s.mode = DONE then
    if PIND &&& 0x80 = 0 then
      { s with go_flag := RESTART }
    else
      s
  else
    s

/-- External interrupt0 interrupt service routine (falling edge on D2). -/
def ext_int0_isr (s : State) : State :=
  if s.mode = FLASH then
    { s with PORTB := 0xFF, count := 0,
             delay := (1500 + s.randcount % 1000) % 65536, mode := DARK }
  else if s.mode = DARK then
    if s.count > BOUNCETIME then
      { s with lcd_flag := CHEAT, mode := DONE }
    else
      s
  else if s.mode = TEST then
    if s.count < s.fastest then
      { s with reacttime := s.count, fastest := s.count, lcd_flag := TIME, mode := DONE }
    else
      { s with reacttime := s.count, lcd_flag := TIME, mode := DONE }
  else
    s

/-! ## Main program -/

/-- The routine `start`: initialise gameplay. -/
def start (s : State) : State :=
  { s with count := 0, go_flag := RUNNING, lcd_flag := START, mode := FLASH, PORTB := 0x00 }

/-- The routine `init`, as far as it touches the modelled state: all LEDs off. -/
def init (s : State) : State :=
  { s with PORTB := 0xFF }

/-- The LCD routines `main` can call, with the number each one prints. -/
inductive LcdCall where
  | lcd_display_start (fastest : Nat)
  | lcd_display_cheat
  | lcd_display_time (reacttime : Nat)
  | lcd_display_slow
  deriving DecidableEq, Repr

/-- The chain of `if (lcd_flag == ...)` tests in the loop of `main`. -/
def lcd_dispatch (s : State) : Option LcdCall :=
  if s.lcd_flag = START then some (LcdCall.lcd_display_start s.fastest)
  else if s.lcd_flag = CHEAT then some LcdCall.lcd_display_cheat
  else if s.lcd_flag = TIME then some (LcdCall.lcd_display_time s.reacttime)
  else if s.lcd_flag = SLOW then some LcdCall.lcd_display_slow
  else none

/-- One iteration of the `while(1)` loop of `main`, run without an interrupt
in between: the new state and the LCD routine that was called, if any. -/
def main_loop_body (s : State) : State × Option LcdCall :=
  let s1 := { s with randcount := (s.randcount + 1) % 65536 }
  let s2 := if s1.go_flag = RESTART then start s1 else s1
  ({ s2 with lcd_flag := NONE }, lcd_dispatch s2)

/-- Memory at power-on: the globals are zero and `fastest` holds its
EEPROM initialiser `0xFFFF`. -/
def power_on : State :=
  { count := 0, delay := 0, randcount := 0, reacttime := 0, fastest := 0xFFFF,
    mode := 0, go_flag := 0, lcd_flag := 0, PORTB := 0 }

/-- The state in which `main` enters its loop: after `init()` and `start()`. -/
def initial : State := start (init power_on)

/-! ## Runs -/

/-- A run of timer interrupts, one port reading per call. -/
def ticks (s : State) (pinds : List Nat) : State :=
  pinds.foldl tim0_comp_isr s

/-- The three kinds of atomic step of the system. -/
inductive Op where
  | tick (PIND : Nat)
  | edge
  | loop
  deriving DecidableEq, Repr

/-- One atomic step. -/
def step (s : State) : Op → State
  | Op.tick PIND => tim0_comp_isr s PIND
  | Op.edge => ext_int0_isr s
  | Op.loop => (main_loop_body s).1

/-- A finite sequence of atomic steps. -/
def run (s : State) (ops : List Op) : State :=
  ops.foldl step s

/-- The values of `reacttime` stored by `ext_int0_isr` in `TEST` mode along a
run, latest first. -/
def recorded (s : State) : List Op → List Nat
  | [] => []
  | op :: ops =>
    recorded (step s op) ops ++
      (if op = Op.edge ∧ s.mode = TEST then [(ext_int0_isr s).reacttime] else [])

/-- A complete round from the initial state: the edge that leaves `FLASH`,
1502 ticks with button 2 not pushed, 300 more ticks, and the edge that stops
the clock. -/
def round_ops : List Op :=
  (Op.edge :: (List.replicate 1502 0x04 ++ List.replicate 300 0x04).map Op.tick)
    ++ [Op.edge]

/-! ## Effects outside the globals

The same three routines once more, each branch now paired with what it does
outside the RAM globals and `PORTB`: calls of the LCD routines and stores to
the `eeprom` variable `fastest`. -/

/-- An LCD call or a store to the `eeprom` variable `fastest`. -/
inductive Effect where
  | lcd (c : LcdCall)
  | eeprom_write (v : Nat)
  deriving DecidableEq, Repr

/-- Timer0 compare interrupt service routine with its effects: no branch
calls an LCD routine or assigns `fastest`. -/
def tim0_comp_isr_trace (s : State) (PIND : Nat) : State × List Effect :=
  if s.mode = FLASH then
    if s.count > 500 then
      ({ s with PORTB := (s.PORTB ^^^ 0xFF) % 256, count := 0 }, [])
    else
      ({ s with count := (s.count + 1) % 65536 }, [])
  else if s.mode = DARK then
    if s.count > s.delay then
      if PIND &&& 0x04 ≠ 0 then
        ({ s with PORTB := 0x00, count := 0, mode := TEST }, [])
      else
        ({ s with PORTB := 0x00, count := 0, lcd_flag := CHEAT, mode := DONE }, [])
    else
      ({ s with count := (s.count + 1) % 65536 }, [])
  else if s.mode = TEST then
    if (s.count + 1) % 65536 = 0xFFFF then
      ({ s with count := (s.count + 1) % 65536, lcd_flag := SLOW, mode := DONE }, [])
    else
      ({ s with count := (s.count + 1) % 65536 }, [])
  else if s.mode = DONE then
    if PIND &&& 0x80 = 0 then
      ({ s with go_flag := RESTART }, [])
    else
      (s, [])
  else
    (s, [])

/-- External interrupt0 interrupt service routine with its effects: the
assignment `fastest = reacttime` in `TEST` mode is a store to EEPROM. -/
def ext_int0_isr_trace (s : State) : State × List Effect :=
  if s.mode = FLASH then
    ({ s with PORTB := 0xFF, count := 0,
              delay := (1500 + s.randcount % 1000) % 65536, mode := DARK }, [])
  else if s.mode = DARK then
    if s.count > BOUNCETIME then
      ({ s with lcd_flag := CHEAT, mode := DONE }, [])
    else
      (s, [])
  else if s.mode = TEST then
    if s.count < s.fastest then
      ({ s with reacttime := s.count, fastest := s.count, lcd_flag := TIME, mode := DONE },
        [Effect.eeprom_write s.count])
    else
      ({ s with reacttime := s.count, lcd_flag := TIME, mode := DONE }, [])
  else
    (s, [])

/-- One iteration of the loop of `main` with its effects: the LCD routine
chosen by `lcd_flag`, if any; `start` and the LCD routines assign no
`eeprom` variable. -/
def main_loop_body_trace (s : State) : State × List Effect :=
  let s1 := { s with randcount := (s.randcount + 1) % 65536 }
  let s2 := if s1.go_flag = RESTART then start s1 else s1
  ({ s2 with lcd_flag := NONE },
    match lcd_dispatch s2 with
    | some c => [Effect.lcd c]
    | none => [])

/-- The bounds on `count` and `delay` that hold in every mode of a round. -/
def count_inv (s : State) : Prop :=
  (s.mode = FLASH → s.count ≤ 501) ∧
    (s.mode = DARK → 1500 ≤ s.delay ∧ s.delay ≤ 2499 ∧ s.count ≤ s.delay + 1) ∧
    (s.mode = TEST → s.count ≤ 65534)

instance (s : State) : Decidable (count_inv s) := by
  unfold count_inv
  infer_instance

/-- A short round that ends with a restart request: the edge that leaves
`FLASH`, 31 ticks, a second edge (past the bounce time, so a cheat) and a tick
with button 7 pushed. -/
def cheat_ops : List Op :=
  Op.edge :: ((List.replicate 31 0x04).map Op.tick ++ [Op.edge, Op.tick 0x00])

/-! ## Helper lemmas -/

theorem ticks_nil (s : State) : ticks s [] = s := rfl

theorem ticks_cons (s : State) (p : Nat) (ps : List Nat) :
    ticks s (p :: ps) = ticks (tim0_comp_isr s p) ps := rfl

theorem ticks_append (s : State) (ps qs : List Nat) :
    ticks s (ps ++ qs) = ticks (ticks s ps) qs := by
  simp [ticks, List.foldl_append]

/-- A tick in `TEST` mode below the overflow value only counts. -/
theorem tick_TEST_count (s : State) (p : Nat) (hm : s.mode = TEST)
    (hc : s.count + 1 < 65535) :
    tim0_comp_isr s p = { s with count := s.count + 1 } := by
  have h1 : (s.count + 1) % 65536 = s.count + 1 := Nat.mod_eq_of_lt (by omega)
  have h2 : s.count + 1 ≠ 65535 := by omega
  simp [tim0_comp_isr, hm, h1, h2]

/-- Any number of ticks in `TEST` mode below the overflow value only count. -/
theorem ticks_TEST_count (pinds : List Nat) :
    ∀ s : State, s.mode = TEST → s.count + pinds.length < 65535 →
      ticks s pinds = { s with count := s.count + pinds.length } := by
  induction pinds with
  | nil => intro s _ _; simp [ticks_nil]
  | cons p ps ih =>
    intro s hm hc
    simp only [List.length_cons] at hc
    have hstep := ih { s with count := s.count + 1 } hm (by simp only; omega)
    rw [ticks_cons, tick_TEST_count s p hm (by omega), hstep]
    simp only [List.length_cons]
    congr 1
    omega

/-- The timer handler never writes `reacttime` or `fastest`. -/
theorem tick_frame (s : State) (p : Nat) :
    (tim0_comp_isr s p).reacttime = s.reacttime ∧
      (tim0_comp_isr s p).fastest = s.fastest := by
  unfold tim0_comp_isr
  split_ifs <;> exact ⟨rfl, rfl⟩

/-- No run of timer interrupts writes `reacttime` or `fastest`. -/
theorem ticks_frame (pinds : List Nat) :
    ∀ s : State, (ticks s pinds).reacttime = s.reacttime ∧
      (ticks s pinds).fastest = s.fastest := by
  induction pinds with
  | nil => intro s; exact ⟨rfl, rfl⟩
  | cons p ps ih =>
    intro s
    rw [ticks_cons]
    exact ⟨(ih _).1.trans (tick_frame s p).1, (ih _).2.trans (tick_frame s p).2⟩

/-- The tick that brings `count` to `0xFFFF` in `TEST` mode times out. -/
theorem tick_TEST_overflow (s : State) (p : Nat) (hm : s.mode = TEST)
    (hc : s.count = 65534) :
    tim0_comp_isr s p = { s with count := 0xFFFF, lcd_flag := SLOW, mode := DONE } := by
  simp [tim0_comp_isr, hm, hc]

/-- A list of length `n + 1` is its first `n` entries followed by one more. -/
theorem list_split_last (pinds : List Nat) (n : Nat) (h : pinds.length = n + 1) :
    ∃ p, pinds = pinds.take n ++ [p] := by
  have hd : (pinds.drop n).length = 1 := by rw [List.length_drop]; omega
  obtain ⟨p, hp⟩ := List.length_eq_one.mp hd
  exact ⟨p, by rw [← hp, List.take_append_drop]⟩

/-- Every atomic step leaves `fastest` alone or lowers it. -/
theorem step_fastest_le (s : State) (op : Op) : (step s op).fastest ≤ s.fastest := by
  cases op with
  | tick p => exact Nat.le_of_eq (tick_frame s p).2
  | edge =>
    simp only [step, ext_int0_isr]
    split_ifs with h1 h2 h3 h4 h5 <;> simp only [le_refl]
    exact Nat.le_of_lt h5
  | loop =>
    simp only [step, main_loop_body, start]
    split_ifs <;> exact Nat.le_refl _

theorem run_nil (s : State) : run s [] = s := rfl

theorem run_cons (s : State) (op : Op) (ops : List Op) :
    run s (op :: ops) = run (step s op) ops := rfl

/-- Every finite run leaves `fastest` alone or lowers it. -/
theorem run_fastest_le (ops : List Op) :
    ∀ s : State, (run s ops).fastest ≤ s.fastest := by
  induction ops with
  | nil => intro s; exact Nat.le_refl _
  | cons op ops ih =>
    intro s
    rw [run_cons]
    exact Nat.le_trans (ih _) (step_fastest_le s op)

/-- After an edge in `TEST` mode `fastest` is at most the stored `reacttime`. -/
theorem edge_TEST_fastest_le (s : State) (hm : s.mode = TEST) :
    (ext_int0_isr s).fastest ≤ (ext_int0_isr s).reacttime := by
  by_cases h : s.count < s.fastest
  · simp [ext_int0_isr, hm, h]
  · have h1 : (ext_int0_isr s).fastest = s.fastest := by simp [ext_int0_isr, hm, h]
    have h2 : (ext_int0_isr s).reacttime = s.count := by simp [ext_int0_isr, hm, h]
    omega

/-- At the end of a run `fastest` is at most every reaction time stored in it. -/
theorem run_fastest_le_recorded (ops : List Op) :
    ∀ s : State, ∀ r ∈ recorded s ops, (run s ops).fastest ≤ r := by
  induction ops with
  | nil => intro s r hr; simp [recorded] at hr
  | cons op ops ih =>
    intro s r hr
    rw [run_cons]
    simp only [recorded, List.mem_append] at hr
    rcases hr with hr | hr
    · exact ih _ r hr
    · split_ifs at hr with hc
      · simp only [List.mem_singleton] at hr
        obtain ⟨hop, hm⟩ := hc
        subst hop hr
        exact Nat.le_trans (run_fastest_le ops _) (edge_TEST_fastest_le s hm)
      · simp at hr

/-- A tick in `DARK` mode before the delay is over only counts. -/
theorem tick_DARK_count (s : State) (p : Nat) (hm : s.mode = DARK)
    (hc : s.count ≤ s.delay) (hd : s.delay < 65535) :
    tim0_comp_isr s p = { s with count := s.count + 1 } := by
  have h1 : (s.count + 1) % 65536 = s.count + 1 := Nat.mod_eq_of_lt (by omega)
  have h2 : ¬ s.count > s.delay := by omega
  simp [tim0_comp_isr, hm, h1, h2]

/-- Ticks in `DARK` mode only count as long as `count` stays within `delay + 1`. -/
theorem ticks_DARK_count (pinds : List Nat) :
    ∀ s : State, s.mode = DARK → s.delay < 65535 →
      s.count + pinds.length ≤ s.delay + 1 →
      ticks s pinds = { s with count := s.count + pinds.length } := by
  induction pinds with
  | nil => intro s _ _ _; simp [ticks_nil]
  | cons p ps ih =>
    intro s hm hd hc
    simp only [List.length_cons] at hc
    have hstep := ih { s with count := s.count + 1 } hm hd (by simp only; omega)
    rw [ticks_cons, tick_DARK_count s p hm (by omega) hd, hstep]
    simp only [List.length_cons]
    congr 1
    omega

/-- The tick that finds the delay over with button 2 not pushed lights the
LEDs and enters `TEST` mode. -/
theorem tick_DARK_expire (s : State) (p : Nat) (hm : s.mode = DARK)
    (hc : s.count > s.delay) (hp : p &&& 0x04 ≠ 0) :
    tim0_comp_isr s p = { s with PORTB := 0x00, count := 0, mode := TEST } := by
  simp [tim0_comp_isr, hm, hc, hp]

/-- From `count = 0` in `DARK` mode, `delay + 2` ticks with button 2 not
pushed end in `TEST` mode with the LEDs on. -/
theorem ticks_DARK_expire (s : State) (pinds : List Nat) (hm : s.mode = DARK)
    (h0 : s.count = 0) (hd : s.delay < 65535) (hlen : pinds.length = s.delay + 2)
    (hrel : ∀ p ∈ pinds, p &&& 0x04 ≠ 0) :
    ticks s pinds = { s with PORTB := 0x00, count := 0, mode := TEST } := by
  obtain ⟨p, hp⟩ := list_split_last pinds (s.delay + 1) hlen
  have htake : (pinds.take (s.delay + 1)).length = s.delay + 1 := by
    rw [List.length_take]; omega
  have hmem : p ∈ pinds := by rw [hp]; simp
  have hfirst := ticks_DARK_count (pinds.take (s.delay + 1)) s hm hd (by omega)
  have hlast := tick_DARK_expire
    { s with count := s.count + (pinds.take (s.delay + 1)).length } p hm
    (by simp only; omega) (hrel p hmem)
  rw [hp, ticks_append, ticks_cons, ticks_nil, hfirst, hlast]

/-- The edge handler in `FLASH` mode. -/
theorem edge_FLASH (s : State) (hm : s.mode = FLASH) :
    ext_int0_isr s =
      { s with PORTB := 0xFF, count := 0, delay := 1500 + s.randcount % 1000,
               mode := DARK } := by
  have hlt : s.randcount % 1000 < 1000 := Nat.mod_lt _ (by omega)
  have h1 : (1500 + s.randcount % 1000) % 65536 = 1500 + s.randcount % 1000 :=
    Nat.mod_eq_of_lt (by omega)
  simp [ext_int0_isr, hm, h1]

/-- A run made of timer interrupts only is a run of `ticks`. -/
theorem run_map_tick (pinds : List Nat) :
    ∀ s : State, run s (pinds.map Op.tick) = ticks s pinds := by
  induction pinds with
  | nil => intro s; rfl
  | cons p ps ih => intro s; exact ih (tim0_comp_isr s p)

/-- An edge that arrives in `TEST` mode at the end of a run is recorded. -/
theorem mem_recorded_append_edge (ops : List Op) :
    ∀ s : State, (run s ops).mode = TEST →
      (ext_int0_isr (run s ops)).reacttime ∈ recorded s (ops ++ [Op.edge]) := by
  induction ops with
  | nil =>
    intro s hm
    have hm2 : s.mode = TEST := hm
    simp [recorded, run_nil, hm2]
  | cons op ops ih =>
    intro s hm
    rw [run_cons] at hm ⊢
    simp only [List.cons_append, recorded, List.mem_append]
    exact Or.inl (ih _ hm)

/-- The state of the round `round_ops` just before its closing edge. -/
theorem round_state :
    run initial (Op.edge :: (List.replicate 1502 0x04 ++ List.replicate 300 0x04).map Op.tick)
      = { ext_int0_isr initial with PORTB := 0x00, count := 300, mode := TEST } := by
  rw [run_cons, run_map_tick, ticks_append]
  have h1 := ticks_DARK_expire (ext_int0_isr initial) (List.replicate 1502 0x04) rfl rfl
    (by decide) (List.length_replicate 1502 0x04)
    (fun p hp => by rw [List.eq_of_mem_replicate hp]; decide)
  have h2 := ticks_TEST_count (List.replicate 300 0x04)
    { ext_int0_isr initial with PORTB := 0x00, count := 0, mode := TEST } rfl
    (by rw [List.length_replicate]; decide)
  show ticks (ticks (ext_int0_isr initial) (List.replicate 1502 0x04))
    (List.replicate 300 0x04) = _
  rw [h1, h2, List.length_replicate]

/-! ## Claims -/

/-- C1: in `TEST` (Armed) mode the start-button edge handler stores `count`
in `reacttime`, sets `fastest` to the minimum of its prior value and `count`,
sets `lcd_flag = TIME` and `mode = DONE`, leaving the other fields alone; and
after `n < 65535` ticks from `count = 0` in `TEST` mode an edge stores
`reacttime = n`. -/
theorem C1_armed_edge_records_reaction (s : State) (hm : s.mode = TEST) :
    ext_int0_isr s =
        { s with reacttime := s.count, fastest := min s.fastest s.count,
                 lcd_flag := TIME, mode := DONE } ∧
      (s.count = 0 → ∀ pinds : List Nat, pinds.length < 65535 →
        (ticks s pinds).mode = TEST ∧
        (ext_int0_isr (ticks s pinds)).reacttime = pinds.length ∧
        (ext_int0_isr (ticks s pinds)).mode = DONE ∧
        (ext_int0_isr (ticks s pinds)).lcd_flag = TIME ∧
        (ext_int0_isr (ticks s pinds)).fastest = min s.fastest pinds.length) := by
  have edge : ∀ t : State, t.mode = TEST → ext_int0_isr t =
      { t with reacttime := t.count, fastest := min t.fastest t.count,
               lcd_flag := TIME, mode := DONE } := by
    intro t ht
    by_cases hlt : t.count < t.fastest
    · have : min t.fastest t.count = t.count := Nat.min_eq_right (Nat.le_of_lt hlt)
      simp [ext_int0_isr, ht, hlt, this]
    · have : min t.fastest t.count = t.fastest := Nat.min_eq_left (by omega)
      simp [ext_int0_isr, ht, hlt, this]
  refine ⟨edge s hm, ?_⟩
  intro h0 pinds hlen
  have hrun := ticks_TEST_count pinds s hm (by omega)
  have hm2 : (ticks s pinds).mode = TEST := by rw [hrun]; exact hm
  rw [edge _ hm2, hrun]
  simp [h0, hm]

/-- Witness of C1: 300 ticks after entering `TEST` mode with `count = 0`, an
edge stores `reacttime = 300`. -/
theorem C1_armed_edge_records_reaction_witness :
    (ext_int0_isr (ticks { initial with mode := TEST } (List.replicate 300 0))).reacttime
      = 300 :=
  ((C1_armed_edge_records_reaction { initial with mode := TEST } rfl).2 rfl
    (List.replicate 300 0)
    (by rw [List.length_replicate]; omega)).2.1.trans (List.length_replicate 300 0)

/-- C2: from `TEST` (Armed) mode with `count = 0`, timer interrupts alone keep
`mode = TEST`, `count = n` and `lcd_flag` unchanged after every `n < 65535`
ticks; after exactly 65535 ticks `count = 0xFFFF`, `mode = DONE` and
`lcd_flag = SLOW`; `reacttime` and `fastest` never change under ticks. -/
theorem C2_armed_ticks_timeout (s : State) (hm : s.mode = TEST) (h0 : s.count = 0) :
    (∀ pinds : List Nat, pinds.length < 65535 →
        (ticks s pinds).mode = TEST ∧ (ticks s pinds).count = pinds.length ∧
        (ticks s pinds).lcd_flag = s.lcd_flag) ∧
      (∀ pinds : List Nat, pinds.length = 65535 →
        (ticks s pinds).count = 0xFFFF ∧ (ticks s pinds).mode = DONE ∧
        (ticks s pinds).lcd_flag = SLOW) ∧
      (∀ pinds : List Nat,
        (ticks s pinds).reacttime = s.reacttime ∧ (ticks s pinds).fastest = s.fastest) := by
  refine ⟨?_, ?_, fun pinds => ticks_frame pinds s⟩
  · intro pinds hlen
    rw [ticks_TEST_count pinds s hm (by omega)]
    exact ⟨hm, by simp [h0], rfl⟩
  · intro pinds hlen
    obtain ⟨p, hp⟩ := list_split_last pinds 65534 hlen
    have htake : (pinds.take 65534).length = 65534 := by
      rw [List.length_take]; omega
    have hfirst := ticks_TEST_count (pinds.take 65534) s hm (by omega)
    have hlast := tick_TEST_overflow
      { s with count := s.count + (pinds.take 65534).length } p hm (by simp only; omega)
    rw [hp, ticks_append, ticks_cons, ticks_nil, hfirst, hlast]
    exact ⟨rfl, rfl, rfl⟩

/-- Witness of C2: from `TEST` mode with `count = 0`, seven ticks give
`count = 7` in `TEST` mode and 65535 ticks give the timeout. -/
theorem C2_armed_ticks_timeout_witness :
    ((ticks { initial with mode := TEST } (List.replicate 7 0)).mode = TEST ∧
      (ticks { initial with mode := TEST } (List.replicate 7 0)).count = 7) ∧
    ((ticks { initial with mode := TEST } (List.replicate 65535 0)).mode = DONE ∧
      (ticks { initial with mode := TEST } (List.replicate 65535 0)).lcd_flag = SLOW) :=
  have h := C2_armed_ticks_timeout { initial with mode := TEST } rfl rfl
  have h7 := h.1 (List.replicate 7 0) (by rw [List.length_replicate]; omega)
  have hN := h.2.1 (List.replicate 65535 0) (List.length_replicate 65535 0)
  ⟨⟨h7.1, h7.2.1.trans (List.length_replicate 7 0)⟩, hN.2.1, hN.2.2⟩

/-- C3: `fastest` (BestTime) never increases: not under one timer interrupt
with any port reading, one start-button edge or one iteration of the main loop
(restart included), and so not under any finite sequence of them. -/
theorem C3_fastest_non_increasing :
    (∀ (s : State) (PIND : Nat), (tim0_comp_isr s PIND).fastest ≤ s.fastest) ∧
      (∀ s : State, (ext_int0_isr s).fastest ≤ s.fastest) ∧
      (∀ s : State, (main_loop_body s).1.fastest ≤ s.fastest) ∧
      (∀ s : State, (start s).fastest ≤ s.fastest) ∧
      (∀ (s : State) (ops : List Op), (run s ops).fastest ≤ s.fastest) :=
  ⟨fun s p => step_fastest_le s (Op.tick p), fun s => step_fastest_le s Op.edge,
    fun s => step_fastest_le s Op.loop, fun _ => Nat.le_refl _,
    fun s ops => run_fastest_le ops s⟩

/-- C4: along every sequence of atomic steps from the initial state
(`fastest = 0xFFFF`, `mode = FLASH`), after every prefix of the sequence
`fastest` is at most every reaction time that an edge in `TEST` mode has
stored during that prefix. -/
theorem C4_fastest_le_recorded (ops : List Op) (k r : Nat)
    (hr : r ∈ recorded initial (ops.take k)) :
    initial.fastest = 0xFFFF ∧ initial.mode = FLASH ∧
      (run initial (ops.take k)).fastest ≤ r :=
  ⟨rfl, rfl, run_fastest_le_recorded (ops.take k) initial r hr⟩

/-- Witness of C4: in the round `round_ops` the closing edge stores the
reaction time 300, and `fastest` is at most 300 afterwards. -/
theorem C4_fastest_le_recorded_witness :
    (run initial (round_ops.take round_ops.length)).fastest ≤ 300 :=
  (C4_fastest_le_recorded round_ops round_ops.length 300
    (by
      rw [List.take_length]
      have h := mem_recorded_append_edge
        (Op.edge :: (List.replicate 1502 0x04 ++ List.replicate 300 0x04).map Op.tick)
        initial (by rw [round_state])
      rw [round_state] at h
      exact h)).2.2

/-- C5: in `FLASH` mode the start-button edge handler sets
`delay = 1500 + randcount % 1000` without 16-bit wraparound, so that
`1500 ≤ delay ≤ 2499`; it also sets `count = 0`, `PORTB = 0xFF` (LEDs off) and
`mode = DARK`, and leaves every other field alone. -/
theorem C5_flash_edge_delay (s : State) (hm : s.mode = FLASH) :
    ext_int0_isr s =
        { s with PORTB := 0xFF, count := 0, delay := 1500 + s.randcount % 1000,
                 mode := DARK } ∧
      (ext_int0_isr s).delay = 1500 + s.randcount % 1000 ∧
      1500 ≤ (ext_int0_isr s).delay ∧ (ext_int0_isr s).delay ≤ 2499 ∧
      (ext_int0_isr s).count = 0 ∧ (ext_int0_isr s).PORTB = 0xFF ∧
      (ext_int0_isr s).mode = DARK := by
  have hlt : s.randcount % 1000 < 1000 := Nat.mod_lt _ (by omega)
  rw [edge_FLASH s hm]
  exact ⟨rfl, rfl, by simp only; omega, by simp only; omega, rfl, rfl, rfl⟩

/-- Witness of C5: with `randcount = 65535` the edge in `FLASH` mode gives
`delay = 2035`. -/
theorem C5_flash_edge_delay_witness :
    (ext_int0_isr { initial with randcount := 65535 }).delay = 2035 ∧
      (ext_int0_isr { initial with randcount := 65535 }).mode = DARK :=
  have h := C5_flash_edge_delay { initial with randcount := 65535 } rfl
  ⟨h.2.1, h.2.2.2.2.2.2⟩

/-- C6: one timer interrupt in `DARK` (Waiting) mode.  With `count > delay`
and button 2 not pushed (`PIND` bit 2 set) it lights all LEDs (`PORTB = 0`),
clears `count` and enters `TEST`, `lcd_flag` unchanged; with `count > delay`
and button 2 pushed it sets `lcd_flag = CHEAT` and `mode = DONE`; with
`count ≤ delay` it only increments `count` (as a 16-bit counter, which is
`count + 1` whenever `count < 65535`) and changes no other field. -/
theorem C6_waiting_tick (s : State) (PIND : Nat) (hm : s.mode = DARK) :
    (s.count > s.delay → PIND &&& 0x04 ≠ 0 →
        tim0_comp_isr s PIND = { s with PORTB := 0x00, count := 0, mode := TEST }) ∧
      (s.count > s.delay → PIND &&& 0x04 = 0 →
        tim0_comp_isr s PIND =
          { s with PORTB := 0x00, count := 0, lcd_flag := CHEAT, mode := DONE }) ∧
      (s.count ≤ s.delay →
        tim0_comp_isr s PIND = { s with count := (s.count + 1) % 65536 } ∧
        (s.count < 65535 → tim0_comp_isr s PIND = { s with count := s.count + 1 })) := by
  refine ⟨fun hc hp => tick_DARK_expire s PIND hm hc hp, ?_, ?_⟩
  · intro hc hp
    simp [tim0_comp_isr, hm, hc, hp]
  · intro hc
    have h2 : ¬ s.count > s.delay := by omega
    have h3 : tim0_comp_isr s PIND = { s with count := (s.count + 1) % 65536 } := by
      simp [tim0_comp_isr, hm, h2]
    refine ⟨h3, fun hlt => ?_⟩
    rw [h3, Nat.mod_eq_of_lt (by omega)]

/-- Witness of C6: at `count = 1501 > delay = 1500` a tick with button 2 not
pushed enters `TEST`, a tick with it pushed reports the cheat; at
`count = 5` a tick gives `count = 6`. -/
theorem C6_waiting_tick_witness :
    (tim0_comp_isr { initial with mode := DARK, delay := 1500, count := 1501 } 0x04).mode
        = TEST ∧
      (tim0_comp_isr { initial with mode := DARK, delay := 1500, count := 1501 } 0x00).lcd_flag
        = CHEAT ∧
      (tim0_comp_isr { initial with mode := DARK, delay := 1500, count := 5 } 0x00).count
        = 6 :=
  ⟨congrArg State.mode
      ((C6_waiting_tick { initial with mode := DARK, delay := 1500, count := 1501 } 0x04
        rfl).1 (by decide) (by decide)),
   congrArg State.lcd_flag
      ((C6_waiting_tick { initial with mode := DARK, delay := 1500, count := 1501 } 0x00
        rfl).2.1 (by decide) (by decide)),
   congrArg State.count
      (((C6_waiting_tick { initial with mode := DARK, delay := 1500, count := 5 } 0x00
        rfl).2.2 (by decide)).2 (by decide))⟩

/-- C7: in `DARK` (Waiting) mode with `count > BOUNCETIME = 30` and `count`
not yet past `delay`, the start-button edge handler sets `lcd_flag = CHEAT`
and `mode = DONE` and changes nothing else. -/
theorem C7_waiting_edge_cheat (s : State) (hm : s.mode = DARK)
    (hb : s.count > 30) (_hd : s.count ≤ s.delay) :
    ext_int0_isr s = { s with lcd_flag := CHEAT, mode := DONE } ∧
      (ext_int0_isr s).lcd_flag = CHEAT ∧ (ext_int0_isr s).mode = DONE := by
  have h : ext_int0_isr s = { s with lcd_flag := CHEAT, mode := DONE } := by
    simp [ext_int0_isr, hm, hb]
  rw [h]
  exact ⟨rfl, rfl, rfl⟩

/-- Witness of C7: an edge at `count = 40` in `DARK` mode with `delay = 1500`. -/
theorem C7_waiting_edge_cheat_witness :
    (ext_int0_isr { initial with mode := DARK, delay := 1500, count := 40 }).lcd_flag
        = CHEAT ∧
      (ext_int0_isr { initial with mode := DARK, delay := 1500, count := 40 }).mode = DONE :=
  (C7_waiting_edge_cheat { initial with mode := DARK, delay := 1500, count := 40 } rfl
    (by decide) (by decide)).2

/-- C8: in `DARK` (Waiting) mode with `count < 30` the start-button edge
handler returns the state unchanged, and so does any number of edges. -/
theorem C8_waiting_edge_bounce_noop (s : State) (hm : s.mode = DARK) (hb : s.count < 30) :
    ext_int0_isr s = s ∧ ∀ n : Nat, ext_int0_isr^[n] s = s := by
  have h : ext_int0_isr s = s := by
    have h2 : ¬ s.count > 30 := by omega
    simp [ext_int0_isr, hm, h2]
  exact ⟨h, fun n => Function.iterate_fixed h n⟩

/-- Witness of C8: an edge at `count = 5` in `DARK` mode changes nothing. -/
theorem C8_waiting_edge_bounce_noop_witness :
    ext_int0_isr { initial with mode := DARK, delay := 1500, count := 5 }
      = { initial with mode := DARK, delay := 1500, count := 5 } :=
  (C8_waiting_edge_bounce_noop { initial with mode := DARK, delay := 1500, count := 5 } rfl
    (by decide)).1

/-- C9 fails as stated: after the edge in `FLASH` mode from the initial state
(`delay = 1500`), `delay + 1 = 1501` ticks with button 2 not pushed leave the
machine in `DARK` mode with the LEDs still off. -/
theorem C9_counterexample :
    initial.mode = FLASH ∧ (ext_int0_isr initial).delay = 1500 ∧
      0x04 &&& 0x04 ≠ 0 ∧
      (ticks (ext_int0_isr initial) (List.replicate (1500 + 1) 0x04)).mode = DARK ∧
      (ticks (ext_int0_isr initial) (List.replicate (1500 + 1) 0x04)).mode ≠ TEST ∧
      (ticks (ext_int0_isr initial) (List.replicate (1500 + 1) 0x04)).PORTB = 0xFF := by
  have h := ticks_DARK_count (List.replicate (1500 + 1) 0x04) (ext_int0_isr initial) rfl
    (by decide) (by rw [List.length_replicate]; decide)
  rw [h]
  exact ⟨rfl, rfl, by decide, rfl, by decide, rfl⟩

/-- C9 (amended): from the state produced by the start-button edge in `FLASH`
mode (`mode = DARK`, `count = 0`, `delay = d`), `d + 2` consecutive ticks with
button 2 not pushed end in `TEST` (Armed) mode with all LEDs on
(`PORTB = 0`); after `d + 1` such ticks the mode is still `DARK`. -/
theorem C9_flash_edge_then_ticks (s : State) (hm : s.mode = FLASH) (pinds : List Nat)
    (hrel : ∀ p ∈ pinds, p &&& 0x04 ≠ 0) :
    ((ext_int0_isr s).mode = DARK ∧ (ext_int0_isr s).count = 0) ∧
      (pinds.length = (ext_int0_isr s).delay + 2 →
        (ticks (ext_int0_isr s) pinds).mode = TEST ∧
        (ticks (ext_int0_isr s) pinds).PORTB = 0x00 ∧
        (ticks (ext_int0_isr s) pinds).count = 0) ∧
      (pinds.length = (ext_int0_isr s).delay + 1 →
        (ticks (ext_int0_isr s) pinds).mode = DARK ∧
        (ticks (ext_int0_isr s) pinds).count = (ext_int0_isr s).delay + 1) := by
  have hlt : s.randcount % 1000 < 1000 := Nat.mod_lt _ (by omega)
  have hw := edge_FLASH s hm
  have hmode : (ext_int0_isr s).mode = DARK := by rw [hw]
  have hcount : (ext_int0_isr s).count = 0 := by rw [hw]
  have hdelay : (ext_int0_isr s).delay < 65535 := by rw [hw]; simp only; omega
  refine ⟨⟨hmode, hcount⟩, ?_, ?_⟩
  · intro hlen
    rw [ticks_DARK_expire (ext_int0_isr s) pinds hmode hcount hdelay hlen hrel]
    exact ⟨rfl, rfl, rfl⟩
  · intro hlen
    rw [ticks_DARK_count pinds (ext_int0_isr s) hmode hdelay (by omega)]
    exact ⟨hmode, by simp only; omega⟩

/-- Witness of C9 (amended): from the initial state the edge gives
`delay = 1500`, and 1502 ticks with button 2 not pushed reach `TEST` mode with
the LEDs on. -/
theorem C9_flash_edge_then_ticks_witness :
    (ticks (ext_int0_isr initial) (List.replicate 1502 0x04)).mode = TEST ∧
      (ticks (ext_int0_isr initial) (List.replicate 1502 0x04)).PORTB = 0x00 ∧
      (ticks (ext_int0_isr initial) (List.replicate 1502 0x04)).count = 0 :=
  (C9_flash_edge_then_ticks initial rfl (List.replicate 1502 0x04)
    (fun p hp => by rw [List.eq_of_mem_replicate hp]; decide)).2.1
    (List.length_replicate 1502 0x04)

/-- C10 fails as stated: in `DONE` mode a tick with button 7 released
(`PIND` bit 7 set) does not set `go_flag`. -/
theorem C10_counterexample :
    0x80 &&& 0x80 ≠ 0 ∧
      ({ initial with mode := DONE } : State).go_flag = RUNNING ∧
      (tim0_comp_isr { initial with mode := DONE } 0x80).go_flag ≠ RESTART ∧
      tim0_comp_isr { initial with mode := DONE } 0x80 = { initial with mode := DONE } := by
  decide

/-- C10 (amended): in `DONE` (Finished) mode a tick during which button 7 is
pushed (`PIND` bit 7 clear) sets `go_flag = RESTART` and changes no other
field, and further such ticks leave the state as it is; a tick during which
button 7 is released (`PIND` bit 7 set) changes nothing. -/
theorem C10_finished_tick_restart (s : State) (PIND : Nat) (hm : s.mode = DONE) :
    (PIND &&& 0x80 = 0 →
        tim0_comp_isr s PIND = { s with go_flag := RESTART } ∧
        ∀ pinds : List Nat, (∀ p ∈ pinds, p &&& 0x80 = 0) →
          ticks (tim0_comp_isr s PIND) pinds = { s with go_flag := RESTART }) ∧
      (PIND &&& 0x80 ≠ 0 → tim0_comp_isr s PIND = s) := by
  have key : ∀ (t : State) (p : Nat), t.mode = DONE → p &&& 0x80 = 0 →
      tim0_comp_isr t p = { t with go_flag := RESTART } := by
    intro t p ht hp
    simp [tim0_comp_isr, ht, hp]
  refine ⟨fun hp => ⟨key s PIND hm hp, ?_⟩, fun hp => by simp [tim0_comp_isr, hm, hp]⟩
  intro pinds
  rw [key s PIND hm hp]
  induction pinds with
  | nil => intro _; rfl
  | cons q qs ih =>
    intro hall
    rw [ticks_cons, key { s with go_flag := RESTART } q hm
      (hall q (List.mem_cons_self q qs))]
    exact ih (fun p hp2 => hall p (List.mem_cons_of_mem q hp2))

/-- Witness of C10 (amended): in `DONE` mode a tick with `PIND = 0` (button 7
pushed) sets `go_flag = RESTART`, and a tick with `PIND = 0x80` does not. -/
theorem C10_finished_tick_restart_witness :
    (tim0_comp_isr { initial with mode := DONE } 0x00).go_flag = RESTART ∧
      tim0_comp_isr { initial with mode := DONE } 0x80 = { initial with mode := DONE } :=
  ⟨congrArg State.go_flag
      ((C10_finished_tick_restart { initial with mode := DONE } 0x00 rfl).1 (by decide)).1,
    (C10_finished_tick_restart { initial with mode := DONE } 0x80 rfl).2 (by decide)⟩

/-! ## Helper lemmas for the main loop and the reachable states -/

/-- The main-loop body when a restart is requested. -/
theorem main_loop_body_restart (s : State) (hgo : s.go_flag = RESTART) :
    main_loop_body s =
      ({ start { s with randcount := (s.randcount + 1) % 65536 } with lcd_flag := NONE },
        some (LcdCall.lcd_display_start s.fastest)) := by
  simp [main_loop_body, hgo, lcd_dispatch, start]

/-- The main-loop body when no restart is requested. -/
theorem main_loop_body_running (s : State) (hgo : s.go_flag ≠ RESTART) :
    main_loop_body s =
      ({ s with randcount := (s.randcount + 1) % 65536, lcd_flag := NONE },
        lcd_dispatch s) := by
  simp [main_loop_body, hgo, lcd_dispatch]

/-- The traced handlers and loop body compute the states of the plain ones. -/
theorem trace_fst (s : State) (PIND : Nat) :
    (tim0_comp_isr_trace s PIND).1 = tim0_comp_isr s PIND ∧
      (ext_int0_isr_trace s).1 = ext_int0_isr s ∧
      (main_loop_body_trace s).1 = (main_loop_body s).1 := by
  refine ⟨?_, ?_, rfl⟩
  · unfold tim0_comp_isr_trace tim0_comp_isr
    split_ifs <;> rfl
  · unfold ext_int0_isr_trace ext_int0_isr
    split_ifs <;> rfl

/-- The effects of the loop body are the LCD call it dispatches, if any. -/
theorem main_loop_body_trace_snd (s : State) :
    (main_loop_body_trace s).2 =
      match (main_loop_body s).2 with
      | some c => [Effect.lcd c]
      | none => [] := rfl

/-- Outside `DONE` mode the timer handler leaves `go_flag` alone. -/
theorem tick_go_flag (s : State) (p : Nat) (hm : s.mode ≠ DONE) :
    (tim0_comp_isr s p).go_flag = s.go_flag := by
  unfold tim0_comp_isr
  split_ifs <;> rfl

/-- In `DONE` mode the timer handler writes at most `go_flag`. -/
theorem tick_DONE (s : State) (p : Nat) (hm : s.mode = DONE) :
    tim0_comp_isr s p = { s with go_flag := (tim0_comp_isr s p).go_flag } := by
  by_cases hp : p &&& 0x80 = 0
  · have h1 : tim0_comp_isr s p = { s with go_flag := RESTART } := by
      simp [tim0_comp_isr, hm, hp]
    rw [h1]
  · have h1 : tim0_comp_isr s p = s := by
      simp [tim0_comp_isr, hm, hp]
    rw [h1]

/-- In `DONE` mode the edge handler does nothing. -/
theorem edge_DONE (s : State) (hm : s.mode = DONE) : ext_int0_isr s = s := by
  simp [ext_int0_isr, hm]

/-- The edge handler never writes `go_flag`. -/
theorem edge_go_flag (s : State) : (ext_int0_isr s).go_flag = s.go_flag := by
  unfold ext_int0_isr
  split_ifs <;> rfl

/-- A restart request is only ever pending in `DONE` mode: one step. -/
theorem step_restart_DONE (s : State) (op : Op)
    (h : s.go_flag = RESTART → s.mode = DONE) :
    (step s op).go_flag = RESTART → (step s op).mode = DONE := by
  cases op with
  | tick p =>
    show (tim0_comp_isr s p).go_flag = RESTART → (tim0_comp_isr s p).mode = DONE
    by_cases hD : s.mode = DONE
    · intro _
      rw [tick_DONE s p hD]
      exact hD
    · rw [tick_go_flag s p hD]
      intro hg
      exact absurd (h hg) hD
  | edge =>
    show (ext_int0_isr s).go_flag = RESTART → (ext_int0_isr s).mode = DONE
    rw [edge_go_flag]
    intro hg
    rw [edge_DONE s (h hg)]
    exact h hg
  | loop =>
    by_cases hgo : s.go_flag = RESTART
    · simp [step, main_loop_body_restart s hgo, start]
    · simp only [step, main_loop_body_running s hgo]
      intro hg
      exact absurd hg hgo

/-- A restart request is only ever pending in `DONE` mode: every run. -/
theorem run_restart_DONE (ops : List Op) :
    ∀ s : State, (s.go_flag = RESTART → s.mode = DONE) →
      (run s ops).go_flag = RESTART → (run s ops).mode = DONE := by
  induction ops with
  | nil => intro s h; exact h
  | cons op ops ih =>
    intro s h
    rw [run_cons]
    exact ih _ (step_restart_DONE s op h)

/-- The state at the end of the run `cheat_ops`. -/
theorem cheat_state :
    run initial cheat_ops =
      { initial with PORTB := 0xFF, count := 31, delay := 1500, lcd_flag := CHEAT,
                     mode := DONE, go_flag := RESTART } := by
  decide

/-! ## Claims, continued -/

/-- C11: when `go_flag = RESTART`, the restart made by the main loop (the call
of `start` after `randcount++`) gives `mode = FLASH`, `count = 0`,
`lcd_flag = START` and `go_flag = RUNNING` and keeps `fastest`, `reacttime`
and `delay`; the same iteration then shows the opening message and clears
`lcd_flag`. -/
theorem C11_restart_resets_round (s : State) (hgo : s.go_flag = RESTART) :
    (start { s with randcount := (s.randcount + 1) % 65536 }).mode = FLASH ∧
      (start { s with randcount := (s.randcount + 1) % 65536 }).count = 0 ∧
      (start { s with randcount := (s.randcount + 1) % 65536 }).lcd_flag = START ∧
      (start { s with randcount := (s.randcount + 1) % 65536 }).go_flag = RUNNING ∧
      (start { s with randcount := (s.randcount + 1) % 65536 }).fastest = s.fastest ∧
      (start { s with randcount := (s.randcount + 1) % 65536 }).reacttime = s.reacttime ∧
      (start { s with randcount := (s.randcount + 1) % 65536 }).delay = s.delay ∧
      main_loop_body s =
        ({ start { s with randcount := (s.randcount + 1) % 65536 } with lcd_flag := NONE },
          some (LcdCall.lcd_display_start s.fastest)) ∧
      (main_loop_body s).1.mode = FLASH ∧ (main_loop_body s).1.count = 0 ∧
      (main_loop_body s).1.go_flag = RUNNING ∧
      (main_loop_body s).1.fastest = s.fastest ∧
      (main_loop_body s).1.reacttime = s.reacttime ∧
      (main_loop_body s).1.delay = s.delay := by
  rw [main_loop_body_restart s hgo]
  exact ⟨rfl, rfl, rfl, rfl, rfl, rfl, rfl, rfl, rfl, rfl, rfl, rfl, rfl, rfl⟩

/-- Witness of C11: the restart after the run `cheat_ops`, which ends in
`DONE` mode with `go_flag = RESTART`, `count = 31` and `delay = 1500`. -/
theorem C11_restart_resets_round_witness :
    (main_loop_body (run initial cheat_ops)).1.mode = FLASH ∧
      (main_loop_body (run initial cheat_ops)).1.count = 0 ∧
      (main_loop_body (run initial cheat_ops)).1.go_flag = RUNNING ∧
      (main_loop_body (run initial cheat_ops)).1.delay = 1500 :=
  have h := C11_restart_resets_round (run initial cheat_ops) (by rw [cheat_state])
  ⟨h.2.2.2.2.2.2.2.2.1, h.2.2.2.2.2.2.2.2.2.1, h.2.2.2.2.2.2.2.2.2.2.1,
    h.2.2.2.2.2.2.2.2.2.2.2.2.2.trans (by rw [cheat_state])⟩

/-- C12: in every state reached from the initial state by atomic steps,
`go_flag = RESTART` implies `mode = DONE`; outside `DONE` mode the timer
handler never changes `go_flag`, whatever `PIND` is; and in a reached state
outside `DONE` mode the main-loop body does not restart (the mode stays). -/
theorem C12_no_restart_mid_round :
    (∀ ops : List Op, (run initial ops).go_flag = RESTART → (run initial ops).mode = DONE) ∧
      (∀ (s : State) (PIND : Nat), s.mode ≠ DONE →
        (tim0_comp_isr s PIND).go_flag = s.go_flag) ∧
      (∀ ops : List Op, (run initial ops).mode ≠ DONE →
        (main_loop_body (run initial ops)).1.mode = (run initial ops).mode ∧
        (main_loop_body (run initial ops)).1.count = (run initial ops).count) := by
  have inv : ∀ ops : List Op,
      (run initial ops).go_flag = RESTART → (run initial ops).mode = DONE :=
    fun ops => run_restart_DONE ops initial (by decide)
  refine ⟨inv, tick_go_flag, ?_⟩
  intro ops hm
  have hgo : (run initial ops).go_flag ≠ RESTART := fun hg => hm (inv ops hg)
  rw [main_loop_body_running _ hgo]
  exact ⟨rfl, rfl⟩

/-- Witness of C12: the run `cheat_ops` ends with `go_flag = RESTART` in
`DONE` mode; a tick in the initial state with button 7 pushed leaves
`go_flag = RUNNING`; the loop body leaves the initial state in `FLASH`. -/
theorem C12_no_restart_mid_round_witness :
    (run initial cheat_ops).mode = DONE ∧
      (tim0_comp_isr initial 0x00).go_flag = RUNNING ∧
      (main_loop_body (run initial [])).1.mode = FLASH :=
  ⟨C12_no_restart_mid_round.1 cheat_ops (by rw [cheat_state]),
    C12_no_restart_mid_round.2.1 initial 0x00 (by decide),
    (C12_no_restart_mid_round.2.2 [] (by decide)).1⟩

/-- C13: one uninterrupted iteration of the main loop.  With no restart
pending it calls exactly the LCD routine that matches `lcd_flag`
(`lcd_display_start` with `fastest`, `lcd_display_cheat`, `lcd_display_time`
with `reacttime`, `lcd_display_slow`), once, and none when `lcd_flag = NONE`;
with `go_flag = RESTART` it calls `lcd_display_start`, whatever `lcd_flag` was;
it always ends with `lcd_flag = NONE`. -/
theorem C13_loop_renders_request (s : State) :
    (s.go_flag ≠ RESTART →
        (s.lcd_flag = START →
          (main_loop_body s).2 = some (LcdCall.lcd_display_start s.fastest) ∧
          (main_loop_body_trace s).2 = [Effect.lcd (LcdCall.lcd_display_start s.fastest)]) ∧
        (s.lcd_flag = CHEAT →
          (main_loop_body s).2 = some LcdCall.lcd_display_cheat ∧
          (main_loop_body_trace s).2 = [Effect.lcd LcdCall.lcd_display_cheat]) ∧
        (s.lcd_flag = TIME →
          (main_loop_body s).2 = some (LcdCall.lcd_display_time s.reacttime) ∧
          (main_loop_body_trace s).2 = [Effect.lcd (LcdCall.lcd_display_time s.reacttime)]) ∧
        (s.lcd_flag = SLOW →
          (main_loop_body s).2 = some LcdCall.lcd_display_slow ∧
          (main_loop_body_trace s).2 = [Effect.lcd LcdCall.lcd_display_slow]) ∧
        (s.lcd_flag = NONE →
          (main_loop_body s).2 = none ∧ (main_loop_body_trace s).2 = [])) ∧
      (s.go_flag = RESTART →
        (main_loop_body s).2 = some (LcdCall.lcd_display_start s.fastest) ∧
        (main_loop_body_trace s).2 = [Effect.lcd (LcdCall.lcd_display_start s.fastest)]) ∧
      (main_loop_body s).1.lcd_flag = NONE ∧
      (main_loop_body_trace s).1 = (main_loop_body s).1 := by
  refine ⟨fun hgo => ?_, fun hgo => ?_, rfl, rfl⟩
  · rw [main_loop_body_trace_snd, main_loop_body_running s hgo]
    refine ⟨fun h => ?_, fun h => ?_, fun h => ?_, fun h => ?_, fun h => ?_⟩ <;>
      simp [lcd_dispatch, h]
  · rw [main_loop_body_trace_snd, main_loop_body_restart s hgo]
    exact ⟨rfl, rfl⟩

/-- Witness of C13: a pending `lcd_flag = TIME` with `reacttime = 300` is
shown as the reaction time 300; after the run `cheat_ops`, which leaves
`lcd_flag = CHEAT` and `go_flag = RESTART`, the opening message is shown. -/
theorem C13_loop_renders_request_witness :
    (main_loop_body_trace { initial with lcd_flag := TIME, reacttime := 300 }).2
        = [Effect.lcd (LcdCall.lcd_display_time 300)] ∧
      (main_loop_body (run initial cheat_ops)).2
        = some (LcdCall.lcd_display_start (run initial cheat_ops).fastest) :=
  ⟨(((C13_loop_renders_request { initial with lcd_flag := TIME, reacttime := 300 }).1
      (by decide)).2.2.1 rfl).2,
    ((C13_loop_renders_request (run initial cheat_ops)).2.1 (by rw [cheat_state])).1⟩

/-- C14: `randcount` is never reset: the timer handler, the edge handler and
`start` leave it unchanged, and every iteration of the main loop, with or
without a restart, replaces it by `(randcount + 1) % 65536`. -/
theorem C14_randcount_never_reset :
    (∀ (s : State) (PIND : Nat), (tim0_comp_isr s PIND).randcount = s.randcount) ∧
      (∀ s : State, (ext_int0_isr s).randcount = s.randcount) ∧
      (∀ s : State, (start s).randcount = s.randcount) ∧
      (∀ s : State, (main_loop_body s).1.randcount = (s.randcount + 1) % 65536) := by
  refine ⟨fun s p => ?_, fun s => ?_, fun _ => rfl, fun s => ?_⟩
  · unfold tim0_comp_isr
    split_ifs <;> rfl
  · unfold ext_int0_isr
    split_ifs <;> rfl
  · by_cases hgo : s.go_flag = RESTART
    · rw [main_loop_body_restart s hgo]; rfl
    · rw [main_loop_body_running s hgo]

/-- C15: in `DONE` (Finished) mode the edge handler returns the state
unchanged, and the timer handler, for any `PIND`, changes no field other than
`go_flag`: `mode` stays `DONE` and `count`, `lcd_flag`, `reacttime` and
`fastest` keep their values. -/
theorem C15_finished_inert (s : State) (PIND : Nat) (hm : s.mode = DONE) :
    ext_int0_isr s = s ∧
      tim0_comp_isr s PIND = { s with go_flag := (tim0_comp_isr s PIND).go_flag } ∧
      (tim0_comp_isr s PIND).mode = DONE ∧
      (tim0_comp_isr s PIND).count = s.count ∧
      (tim0_comp_isr s PIND).lcd_flag = s.lcd_flag ∧
      (tim0_comp_isr s PIND).reacttime = s.reacttime ∧
      (tim0_comp_isr s PIND).fastest = s.fastest := by
  have h := tick_DONE s PIND hm
  refine ⟨edge_DONE s hm, h, ?_, ?_, ?_, ?_, ?_⟩
  · rw [h]; exact hm
  all_goals rw [h]

/-- Witness of C15: in the `DONE` state at the end of `cheat_ops`, an edge
changes nothing and a tick keeps `mode = DONE`. -/
theorem C15_finished_inert_witness :
    ext_int0_isr (run initial cheat_ops) = run initial cheat_ops ∧
      (tim0_comp_isr (run initial cheat_ops) 0x80).mode = DONE :=
  have h := C15_finished_inert (run initial cheat_ops) 0x80 (by rw [cheat_state])
  ⟨h.1, h.2.2.1⟩

/-- C16 fails as stated: an edge in `DARK` mode at `count = 40` changes the
mode to `DONE` and leaves `count = 40`; an edge in `TEST` mode at
`count = 300` changes the mode to `DONE` and leaves `count = 300`; the timeout
tick in `TEST` mode changes the mode to `DONE` with `count = 0xFFFF`. -/
theorem C16_counterexample :
    (({ initial with mode := DARK, delay := 1500, count := 40 } : State).mode = DARK ∧
        (ext_int0_isr { initial with mode := DARK, delay := 1500, count := 40 }).mode = DONE ∧
        (ext_int0_isr { initial with mode := DARK, delay := 1500, count := 40 }).count = 40) ∧
      ((ext_int0_isr { initial with mode := TEST, count := 300 }).mode = DONE ∧
        (ext_int0_isr { initial with mode := TEST, count := 300 }).count = 300) ∧
      ((tim0_comp_isr { initial with mode := TEST, count := 65534 } 0x84).mode = DONE ∧
        (tim0_comp_isr { initial with mode := TEST, count := 65534 } 0x84).count = 0xFFFF) := by
  decide

/-- C16 (amended): `count` is 0 after every mode change except those into
`DONE` made by the edge handler or by the timeout tick.  A tick that changes
the mode out of `DARK` leaves `count = 0`; a tick that changes it out of
`TEST` goes to `DONE` with `count = 0xFFFF`; an edge that changes the mode
either leaves `FLASH` for `DARK` with `count = 0` or goes to `DONE` with
`count` unchanged; `start` always leaves `count = 0`. -/
theorem C16_count_on_mode_change (s : State) :
    (∀ PIND : Nat, (tim0_comp_isr s PIND).mode ≠ s.mode →
        (s.mode = DARK ∧ (tim0_comp_isr s PIND).count = 0) ∨
        (s.mode = TEST ∧ (tim0_comp_isr s PIND).mode = DONE ∧
          (tim0_comp_isr s PIND).count = 0xFFFF)) ∧
      ((ext_int0_isr s).mode ≠ s.mode →
        (s.mode = FLASH ∧ (ext_int0_isr s).mode = DARK ∧ (ext_int0_isr s).count = 0) ∨
        ((ext_int0_isr s).mode = DONE ∧ (ext_int0_isr s).count = s.count)) ∧
      (start s).count = 0 ∧
      ((main_loop_body s).1.mode ≠ s.mode → (main_loop_body s).1.count = 0) := by
  refine ⟨fun p => ?_, ?_, rfl, ?_⟩
  · unfold tim0_comp_isr
    split_ifs with h1 h2 h3 h4 h5 h6 h7 h8 <;> intro hne <;>
      first
      | exact absurd rfl hne
      | exact Or.inl ⟨h3, rfl⟩
      | exact Or.inr ⟨h6, rfl, h7⟩
  · unfold ext_int0_isr
    split_ifs with h1 h2 h3 h4 h5 <;> intro hne <;>
      first
      | exact absurd rfl hne
      | exact Or.inl ⟨h1, rfl, rfl⟩
      | exact Or.inr ⟨rfl, rfl⟩
  · by_cases hgo : s.go_flag = RESTART
    · rw [main_loop_body_restart s hgo]; intro _; rfl
    · rw [main_loop_body_running s hgo]; intro hne; exact absurd rfl hne

/-- Witness of C16 (amended): the tick that ends `DARK` mode at
`count = 1501 > delay = 1500` leaves `count = 0`; the edge in `FLASH` mode
leaves `count = 0`; the restart after `cheat_ops` leaves `count = 0`. -/
theorem C16_count_on_mode_change_witness :
    (tim0_comp_isr { initial with mode := DARK, delay := 1500, count := 1501 } 0x04).count = 0 ∧
      (ext_int0_isr { initial with count := 77 }).count = 0 ∧
      (main_loop_body (run initial cheat_ops)).1.count = 0 :=
  ⟨((C16_count_on_mode_change
        { initial with mode := DARK, delay := 1500, count := 1501 }).1 0x04
        (by decide)).elim (fun h => h.2) (fun h => absurd h.1 (by decide)),
    ((C16_count_on_mode_change { initial with count := 77 }).2.1
        (by decide)).elim (fun h => h.2.2) (fun h => absurd h.1 (by decide)),
    (C16_count_on_mode_change (run initial cheat_ops)).2.2.2
        (by rw [cheat_state]; decide)⟩

/-! ## Helper lemmas for `FLASH` mode and the bounds on `count` -/

/-- A tick in `FLASH` mode with `count ≤ 500` only counts. -/
theorem tick_FLASH_count (s : State) (p : Nat) (hm : s.mode = FLASH)
    (hc : s.count ≤ 500) :
    tim0_comp_isr s p = { s with count := s.count + 1 } := by
  have h1 : (s.count + 1) % 65536 = s.count + 1 := Nat.mod_eq_of_lt (by omega)
  have h2 : ¬ s.count > 500 := by omega
  simp [tim0_comp_isr, hm, h1, h2]

/-- Ticks in `FLASH` mode only count as long as `count` stays within 501. -/
theorem ticks_FLASH_count (pinds : List Nat) :
    ∀ s : State, s.mode = FLASH → s.count + pinds.length ≤ 501 →
      ticks s pinds = { s with count := s.count + pinds.length } := by
  induction pinds with
  | nil => intro s _ _; simp [ticks_nil]
  | cons p ps ih =>
    intro s hm hc
    simp only [List.length_cons] at hc
    have hstep := ih { s with count := s.count + 1 } hm (by simp only; omega)
    rw [ticks_cons, tick_FLASH_count s p hm (by omega), hstep]
    simp only [List.length_cons]
    congr 1
    omega

/-- A tick in `FLASH` mode with `count > 500` toggles the LEDs and clears
`count`. -/
theorem tick_FLASH_toggle (s : State) (p : Nat) (hm : s.mode = FLASH)
    (hc : s.count > 500) :
    tim0_comp_isr s p = { s with PORTB := (s.PORTB ^^^ 0xFF) % 256, count := 0 } := by
  simp [tim0_comp_isr, hm, hc]

/-- From `count = 0` in `FLASH` mode, 502 ticks toggle the LEDs once and end
with `count = 0`. -/
theorem ticks_FLASH_period (s : State) (pinds : List Nat) (hm : s.mode = FLASH)
    (h0 : s.count = 0) (hlen : pinds.length = 502) :
    ticks s pinds = { s with PORTB := (s.PORTB ^^^ 0xFF) % 256, count := 0 } := by
  obtain ⟨p, hp⟩ := list_split_last pinds 501 hlen
  have htake : (pinds.take 501).length = 501 := by
    rw [List.length_take]; omega
  have hfirst := ticks_FLASH_count (pinds.take 501) s hm (by omega)
  have hlast := tick_FLASH_toggle
    { s with count := s.count + (pinds.take 501).length } p hm (by simp only; omega)
  rw [hp, ticks_append, ticks_cons, ticks_nil, hfirst, hlast]

/-- Every atomic step keeps the bounds `count_inv`. -/
theorem step_count_inv (s : State) (op : Op) (h : count_inv s) :
    count_inv (step s op) := by
  obtain ⟨hF, hD, hT⟩ := h
  have hr : s.randcount % 1000 < 1000 := Nat.mod_lt _ (by omega)
  cases op with
  | tick p =>
    show count_inv (tim0_comp_isr s p)
    unfold tim0_comp_isr count_inv
    simp only [FLASH, DARK, TEST, DONE] at *
    split_ifs with h1 h2 h3 h4 h5 h6 h7 h8 <;>
      refine ⟨fun hm => ?_, fun hm => ?_, fun hm => ?_⟩ <;>
      simp only at hm ⊢ <;> omega
  | edge =>
    show count_inv (ext_int0_isr s)
    unfold ext_int0_isr count_inv
    simp only [FLASH, DARK, TEST, DONE, BOUNCETIME] at *
    split_ifs with h1 h2 h3 h4 h5 <;>
      refine ⟨fun hm => ?_, fun hm => ?_, fun hm => ?_⟩ <;>
      simp only at hm ⊢ <;> omega
  | loop =>
    show count_inv (main_loop_body s).1
    by_cases hgo : s.go_flag = RESTART
    · rw [main_loop_body_restart s hgo]
      unfold count_inv start
      simp only [FLASH, DARK, TEST] at *
      refine ⟨fun _ => ?_, fun hm => ?_, fun hm => ?_⟩ <;> omega
    · rw [main_loop_body_running s hgo]
      exact ⟨hF, hD, hT⟩

/-- Every run keeps the bounds `count_inv`. -/
theorem run_count_inv (ops : List Op) :
    ∀ s : State, count_inv s → count_inv (run s ops) := by
  induction ops with
  | nil => intro s h; exact h
  | cons op ops ih =>
    intro s h
    rw [run_cons]
    exact ih _ (step_count_inv s op h)

/-- The bounds `count_inv` hold in the initial state. -/
theorem initial_count_inv : count_inv initial := by decide

/-- Under `count_inv` every reaction time stored in a run is below `0xFFFF`. -/
theorem recorded_le (ops : List Op) :
    ∀ s : State, count_inv s → ∀ r ∈ recorded s ops, r ≤ 65534 := by
  induction ops with
  | nil => intro s _ r hr; simp [recorded] at hr
  | cons op ops ih =>
    intro s h r hr
    simp only [recorded, List.mem_append] at hr
    rcases hr with hr | hr
    · exact ih _ (step_count_inv s op h) r hr
    · split_ifs at hr with hc
      · simp only [List.mem_singleton] at hr
        obtain ⟨_, hm⟩ := hc
        have hcount : (ext_int0_isr s).reacttime = s.count := by
          by_cases hlt : s.count < s.fastest <;> simp [ext_int0_isr, hm, hlt]
        rw [hr, hcount]
        exact h.2.2 hm
      · simp at hr

/-! ## Claims on flashing, effects, the mode graph and the bounds -/

/-- C17, as the code behaves: in `FLASH` mode from `count = 0` with no edge,
the first 501 ticks only count (so after 500 ticks the LEDs have not been
toggled), and tick 502 is the first to invert `PORTB` and clear `count`; the
state is then again `FLASH` with `count = 0`, so toggles are 502 ticks
apart. -/
theorem C17_flash_toggle_every_502 (s : State) (pinds : List Nat)
    (hm : s.mode = FLASH) (h0 : s.count = 0) :
    (pinds.length ≤ 501 → ticks s pinds = { s with count := pinds.length }) ∧
      (pinds.length = 502 →
        ticks s pinds = { s with PORTB := (s.PORTB ^^^ 0xFF) % 256, count := 0 } ∧
        (ticks s pinds).mode = FLASH ∧ (ticks s pinds).count = 0) := by
  refine ⟨fun hlen => ?_, fun hlen => ?_⟩
  · rw [ticks_FLASH_count pinds s hm (by omega), h0, Nat.zero_add]
  · rw [ticks_FLASH_period s pinds hm h0 hlen]
    exact ⟨rfl, hm, rfl⟩

/-- Witness of C17: from the initial state (LEDs on, `PORTB = 0`) 500 ticks
leave `PORTB = 0` with `count = 500`, and 502 ticks give `PORTB = 0xFF` with
`count = 0`. -/
theorem C17_flash_toggle_every_502_witness :
    ((ticks initial (List.replicate 500 0x84)).PORTB = 0x00 ∧
        (ticks initial (List.replicate 500 0x84)).count = 500) ∧
      ((ticks initial (List.replicate 502 0x84)).PORTB = 0xFF ∧
        (ticks initial (List.replicate 502 0x84)).count = 0) :=
  have h500 := (C17_flash_toggle_every_502 initial (List.replicate 500 0x84) rfl rfl).1
    (by rw [List.length_replicate]; omega)
  have h502 := ((C17_flash_toggle_every_502 initial (List.replicate 502 0x84) rfl rfl).2
    (List.length_replicate 502 0x84)).1
  ⟨⟨congrArg State.PORTB h500,
      (congrArg State.count h500).trans (List.length_replicate 500 0x84)⟩,
    congrArg State.PORTB h502, congrArg State.count h502⟩

/-- C18 fails as stated: in `TEST` mode with `count = 300 < fastest = 0xFFFF`
the edge handler stores 300 into the `eeprom` variable `fastest`. -/
theorem C18_counterexample :
    ({ initial with mode := TEST, count := 300 } : State).fastest = 0xFFFF ∧
      (ext_int0_isr_trace { initial with mode := TEST, count := 300 }).2
        = [Effect.eeprom_write 300] ∧
      (ext_int0_isr { initial with mode := TEST, count := 300 }).fastest = 300 := by
  decide

/-- C18 (amended): neither handler calls an LCD routine, and the timer handler
does not store to the `eeprom` variable `fastest`; the edge handler stores to
it exactly when `mode = TEST` and `count < fastest`, writing `count`; the body
of the main loop calls LCD routines only and never stores to `fastest`. -/
theorem C18_handler_effects :
    (∀ (s : State) (PIND : Nat),
        (tim0_comp_isr_trace s PIND).1 = tim0_comp_isr s PIND ∧
        (tim0_comp_isr_trace s PIND).2 = [] ∧
        (tim0_comp_isr s PIND).fastest = s.fastest) ∧
      (∀ s : State,
        (ext_int0_isr_trace s).1 = ext_int0_isr s ∧
        (∀ c : LcdCall, Effect.lcd c ∉ (ext_int0_isr_trace s).2) ∧
        (ext_int0_isr_trace s).2 =
          (if s.mode = TEST ∧ s.count < s.fastest then [Effect.eeprom_write s.count]
           else [])) ∧
      (∀ s : State,
        (main_loop_body_trace s).1 = (main_loop_body s).1 ∧
        (∀ v : Nat, Effect.eeprom_write v ∉ (main_loop_body_trace s).2) ∧
        (main_loop_body s).1.fastest = s.fastest) := by
  refine ⟨fun s p => ⟨(trace_fst s p).1, ?_, (tick_frame s p).2⟩,
    fun s => ⟨(trace_fst s 0).2.1, ?_, ?_⟩, fun s => ⟨rfl, ?_, ?_⟩⟩
  · unfold tim0_comp_isr_trace
    split_ifs <;> rfl
  · intro c
    unfold ext_int0_isr_trace
    split_ifs <;> simp
  · unfold ext_int0_isr_trace
    simp only [FLASH, DARK, TEST]
    split_ifs <;> first | rfl | omega
  · intro v
    rw [main_loop_body_trace_snd]
    cases (main_loop_body s).2 <;> simp
  · by_cases hgo : s.go_flag = RESTART
    · rw [main_loop_body_restart s hgo]; rfl
    · rw [main_loop_body_running s hgo]

/-- C19: the mode moves along the fixed graph only.  A tick changes it only
from `DARK` to `TEST`, from `DARK` to `DONE` or from `TEST` to `DONE`, and never
in `FLASH` or `DONE`; an edge changes it only from `FLASH` to `DARK`, from
`DARK` to `DONE` or from `TEST` to `DONE`, and never into `TEST`; the body of
the main loop changes it only to `FLASH` and only when `go_flag = RESTART`. -/
theorem C19_mode_transition_graph (s : State) :
    (∀ PIND : Nat, (tim0_comp_isr s PIND).mode ≠ s.mode →
        (s.mode = DARK ∧ (tim0_comp_isr s PIND).mode = TEST) ∨
        (s.mode = DARK ∧ (tim0_comp_isr s PIND).mode = DONE) ∨
        (s.mode = TEST ∧ (tim0_comp_isr s PIND).mode = DONE)) ∧
      (∀ PIND : Nat, s.mode = FLASH ∨ s.mode = DONE →
        (tim0_comp_isr s PIND).mode = s.mode) ∧
      ((ext_int0_isr s).mode ≠ s.mode →
        (s.mode = FLASH ∧ (ext_int0_isr s).mode = DARK) ∨
        (s.mode = DARK ∧ (ext_int0_isr s).mode = DONE) ∨
        (s.mode = TEST ∧ (ext_int0_isr s).mode = DONE)) ∧
      ((ext_int0_isr s).mode = TEST → s.mode = TEST) ∧
      ((main_loop_body s).1.mode ≠ s.mode →
        s.go_flag = RESTART ∧ (main_loop_body s).1.mode = FLASH) := by
  have htick : ∀ PIND : Nat, (tim0_comp_isr s PIND).mode ≠ s.mode →
      (s.mode = DARK ∧ (tim0_comp_isr s PIND).mode = TEST) ∨
      (s.mode = DARK ∧ (tim0_comp_isr s PIND).mode = DONE) ∨
      (s.mode = TEST ∧ (tim0_comp_isr s PIND).mode = DONE) := by
    intro p
    unfold tim0_comp_isr
    split_ifs with h1 h2 h3 h4 h5 h6 h7 h8 <;> intro hne <;>
      first
      | exact absurd rfl hne
      | exact Or.inl ⟨h3, rfl⟩
      | exact Or.inr (Or.inl ⟨h3, rfl⟩)
      | exact Or.inr (Or.inr ⟨h6, rfl⟩)
  have hedge : (ext_int0_isr s).mode ≠ s.mode →
      (s.mode = FLASH ∧ (ext_int0_isr s).mode = DARK) ∨
      (s.mode = DARK ∧ (ext_int0_isr s).mode = DONE) ∨
      (s.mode = TEST ∧ (ext_int0_isr s).mode = DONE) := by
    unfold ext_int0_isr
    split_ifs with h1 h2 h3 h4 h5 <;> intro hne <;>
      first
      | exact absurd rfl hne
      | exact Or.inl ⟨h1, rfl⟩
      | exact Or.inr (Or.inl ⟨h2, rfl⟩)
      | exact Or.inr (Or.inr ⟨h4, rfl⟩)
  refine ⟨htick, fun p hFD => ?_, hedge, fun hT => ?_, fun hne => ?_⟩
  · by_contra hne
    rcases htick p hne with h | h | h <;> rcases hFD with hm | hm <;>
      simp only [FLASH, DARK, TEST, DONE] at * <;> omega
  · by_contra hne
    have hne2 : (ext_int0_isr s).mode ≠ s.mode := fun h => hne (h ▸ hT)
    rcases hedge hne2 with h | h | h <;>
      simp only [FLASH, DARK, TEST, DONE] at * <;> omega
  · by_cases hgo : s.go_flag = RESTART
    · rw [main_loop_body_restart s hgo]
      exact ⟨hgo, rfl⟩
    · rw [main_loop_body_running s hgo] at hne
      exact absurd rfl hne

/-- Witness of C19: the tick that ends `DARK` mode with button 2 not pushed
goes to `TEST`; a tick in the initial `FLASH` state keeps the mode; the edge in
the initial state goes to `DARK`; the loop body after `cheat_ops` goes to
`FLASH`. -/
theorem C19_mode_transition_graph_witness :
    (tim0_comp_isr { initial with mode := DARK, delay := 1500, count := 1501 } 0x04).mode
        = TEST ∧
      (tim0_comp_isr initial 0x00).mode = FLASH ∧
      (ext_int0_isr initial).mode = DARK ∧
      (main_loop_body (run initial cheat_ops)).1.mode = FLASH :=
  ⟨((C19_mode_transition_graph
        { initial with mode := DARK, delay := 1500, count := 1501 }).1 0x04
        (by decide)).elim (fun h => h.2)
        (fun h => h.elim (fun h2 => absurd h2.2 (by decide))
          (fun h2 => absurd h2.1 (by decide))),
    (C19_mode_transition_graph initial).2.1 0x00 (Or.inl rfl),
    ((C19_mode_transition_graph initial).2.2.1 (by decide)).elim (fun h => h.2)
        (fun h => h.elim (fun h2 => absurd h2.1 (by decide))
          (fun h2 => absurd h2.1 (by decide))),
    ((C19_mode_transition_graph (run initial cheat_ops)).2.2.2.2
        (by rw [cheat_state]; decide)).2⟩

/-- C20: in every state reached from the initial state by atomic steps,
`mode = FLASH` implies `count ≤ 501`, `mode = DARK` implies
`1500 ≤ delay ≤ 2499` and `count ≤ delay + 1`, and `mode = TEST` implies
`count ≤ 65534`, so no `count++` wraps around 16 bits; every reaction time
stored by an edge in `TEST` mode is at most 65534; and an edge in `TEST` mode
with `fastest = 0xFFFF` always sets `fastest`, to `count < 0xFFFF`. -/
theorem C20_count_never_wraps (ops : List Op) :
    ((run initial ops).mode = FLASH → (run initial ops).count ≤ 501) ∧
      ((run initial ops).mode = DARK →
        1500 ≤ (run initial ops).delay ∧ (run initial ops).delay ≤ 2499 ∧
        (run initial ops).count ≤ (run initial ops).delay + 1) ∧
      ((run initial ops).mode = TEST → (run initial ops).count ≤ 65534) ∧
      ((run initial ops).mode = FLASH ∨ (run initial ops).mode = DARK ∨
          (run initial ops).mode = TEST →
        ((run initial ops).count + 1) % 65536 = (run initial ops).count + 1) ∧
      (∀ r ∈ recorded initial ops, r ≤ 65534 ∧ r < 0xFFFF) ∧
      ((run initial ops).mode = TEST → (run initial ops).fastest = 0xFFFF →
        (ext_int0_isr (run initial ops)).fastest = (run initial ops).count ∧
        (ext_int0_isr (run initial ops)).reacttime = (run initial ops).count ∧
        (ext_int0_isr (run initial ops)).fastest < 0xFFFF) := by
  have hinv := run_count_inv ops initial initial_count_inv
  obtain ⟨hF, hD, hT⟩ := hinv
  refine ⟨hF, hD, hT, fun hm => ?_, fun r hr => ?_, fun hm hf => ?_⟩
  · apply Nat.mod_eq_of_lt
    rcases hm with hm | hm | hm
    · have := hF hm; omega
    · have := hD hm; omega
    · have := hT hm; omega
  · have := recorded_le ops initial initial_count_inv r hr
    exact ⟨this, by omega⟩
  · have hc := hT hm
    have hlt : (run initial ops).count < (run initial ops).fastest := by rw [hf]; omega
    have h1 : (ext_int0_isr (run initial ops)).fastest = (run initial ops).count := by
      simp [ext_int0_isr, hm, hlt]
    have h2 : (ext_int0_isr (run initial ops)).reacttime = (run initial ops).count := by
      simp [ext_int0_isr, hm, hlt]
    exact ⟨h1, h2, by rw [h1]; omega⟩

/-- Witness of C20: after the edge that leaves `FLASH`, 1502 ticks and 300
more ticks the machine is in `TEST` mode with `count = 300` and
`fastest = 0xFFFF`, and the edge sets `fastest = 300`. -/
theorem C20_count_never_wraps_witness :
    (ext_int0_isr (run initial
      (Op.edge :: (List.replicate 1502 0x04 ++ List.replicate 300 0x04).map Op.tick))).fastest
      = 300 := by
  have h := (C20_count_never_wraps
    (Op.edge :: (List.replicate 1502 0x04 ++ List.replicate 300 0x04).map Op.tick)).2.2.2.2.2
  rw [round_state] at h ⊢
  exact (h rfl rfl).1

end Lab01
